import Mathlib

/-!
Verification of the protein-agent inbound-message pipeline.

The definitions below are a shallow embedding of the TypeScript sources:
- src/workers/webhookWorker.ts   (the webhook worker state machine)
- the Express ingress (POST /webhooks handler that enqueues a job)
- lib/queue.ts                   (BullMQ queue configuration)
- services/evolutionApiService.ts (the delivery client, sendTextMessage)
- errors/index.ts                (the error taxonomy, as inductive types)

External collaborators (user/context resolution, agent invocation, the
HTTP transport underneath fetch) are modelled as oracles supplied to the
embedded functions; JavaScript strings are Lean Strings and JS
truthiness of an optional string is captured explicitly (undefined or
the empty string are falsy).
-/

namespace ProteinAgent

/-- Characters of a list before the first occurrence of the separator:
the semantics of the JavaScript expression s.split(sep)[0] for a
single-character separator. -/
def splitHead (sep : Char) : List Char → List Char
  | [] => []
  | c :: cs => if c = sep then [] else c :: splitHead sep cs

/-- The JavaScript String.prototype.trim: the string with leading and
trailing whitespace characters removed, at the character level. -/
def jsTrim (s : String) : String :=
  ⟨((s.data.dropWhile Char.isWhitespace).reverse.dropWhile Char.isWhitespace).reverse⟩

/-- Key object of the webhook payload: data.key.remoteJid. -/
structure DataKey where
  remoteJid : Option String
deriving DecidableEq, Repr

/-- Message object of the webhook payload: data.message.conversation. -/
structure DataMessage where
  conversation : Option String
deriving DecidableEq, Repr

/-- The data object of the webhook payload. -/
structure EventData where
  key : Option DataKey
  message : Option DataMessage
deriving DecidableEq, Repr

/-- One level of the EvolutionWebhookBody envelope: the fields the
worker reads after unwrapping (event tag and data). -/
structure Envelope where
  event : Option String
  data : Option EventData
deriving DecidableEq, Repr

/-- The raw job payload body as typed in webhookWorker.ts: an envelope
that may additionally wrap a nested envelope under jobData.body.  The
outer Option models a missing jobData field, the inner Option a jobData
object without a body field.  The worker only ever unwraps one level,
so only the fields it can reach are represented. -/
structure WebhookBody where
  event : Option String
  data : Option EventData
  jobData : Option (Option Envelope)
deriving DecidableEq, Repr

/-- The unwrap step of the worker: webhookData = body.jobData?.body || body.
A present nested body (an object, hence truthy in JS) wins; otherwise
the raw body is used directly. -/
def unwrap (body : WebhookBody) : Envelope :=
  match body.jobData with
  | some (some inner) => inner
  | _ => { event := body.event, data := body.data }

/-- Resolved user as consumed by the worker (contextService.getUserByPhone). -/
structure User where
  id : Nat
  name : String
deriving DecidableEq, Repr

/-- Outcome of the external user/context resolution collaborator:
a found user, a UserNotFoundError, or any other thrown error. -/
inductive ResolveResult where
  | found (user : User)
  | notFound
  | failure (message : String)
deriving DecidableEq, Repr

/-- Content of an agent message: either a plain string, or a structured
(non-string) value whose JSON.stringify rendering is carried as an
already-computed string (the agent is an external collaborator, so the
structured value itself is kept abstract). -/
inductive MsgContent where
  | str (s : String)
  | structured (stringified : String)
deriving DecidableEq, Repr

/-- The rendering step of the worker: a string content is used as is, a
non-string content is rendered with JSON.stringify. -/
def MsgContent.render : MsgContent → String
  | .str s => s
  | .structured j => j

/-- A message of the agent response. -/
structure AgentMessage where
  content : MsgContent
deriving DecidableEq, Repr

/-- Outcome of creating the agent and invoking it on the message text
(createProteinAgent followed by agent.invoke): a response carrying a
list of messages, or a thrown error. -/
inductive AgentResult where
  | ok (messages : List AgentMessage)
  | err (message : String)
deriving DecidableEq, Repr

/-- Outcome of the delivery client call as seen by the worker: success
or a thrown error. -/
inductive DeliverResult where
  | ok
  | err (message : String)
deriving DecidableEq, Repr

/-- The worker's three external collaborators, as oracles. -/
structure Env where
  resolveUser : String → ResolveResult
  invokeAgent : Nat → String → AgentResult
  deliver : String → String → DeliverResult

/-- Phone-number extraction of the worker (line 54 of webhookWorker.ts):
remoteJid.includes('@') ? remoteJid.split('@')[0] : remoteJid. -/
def normalizePhone (remoteJid : String) : String :=
  if '@' ∈ remoteJid.data then ⟨splitHead '@' remoteJid.data⟩ else remoteJid

/-- A downstream call made by the worker while processing one job. -/
inductive Call where
  | resolveUser (phone : String)
  | invokeAgent (userId : Nat) (text : String)
  | deliver (phone : String) (text : String)
deriving DecidableEq, Repr

/-- The error with which a job processing run fails (the value re-thrown
from the worker's outer catch). -/
inductive WorkerError where
  | resolveFailure (message : String)
  | agentFailure (message : String)
  | undefinedLastMessage
deriving DecidableEq, Repr

/-- Result of one job processing run as reported to the queue:
the handler returned (job completed) or threw (job failed). -/
inductive Outcome where
  | completed
  | failed (e : WorkerError)
deriving DecidableEq, Repr

/-- The webhook worker's processing function for one job, embedded from
webhookWorker.ts, together with the trace of downstream calls it makes.
Control flow follows the source exactly: unwrap, event filter, remoteJid
extraction (the JS check !remoteJid also rejects an empty string),
normalization, user resolution (UserNotFoundError is swallowed, other
errors re-thrown), message-text extraction (an empty conversation string
is falsy and skipped), agent invocation, reading the last message
(undefined when the list is empty, so reading .content throws), reply
rendering, and delivery whose errors are caught and logged without
failing the job. -/
def processJob (env : Env) (body : WebhookBody) : Outcome × List Call :=
  let webhookData := unwrap body
  if webhookData.event ≠ some "messages.upsert" then
    (.completed, [])
  else
    match (webhookData.data.bind EventData.key).bind DataKey.remoteJid with
    | none => (.completed, [])
    | some remoteJid =>
      if remoteJid = "" then (.completed, [])
      else
        let phoneNumber := normalizePhone remoteJid
        match env.resolveUser phoneNumber with
        | .notFound => (.completed, [.resolveUser phoneNumber])
        | .failure m => (.failed (.resolveFailure m), [.resolveUser phoneNumber])
        | .found user =>
          match (webhookData.data.bind EventData.message).bind DataMessage.conversation with
          | none => (.completed, [.resolveUser phoneNumber])
          | some messageText =>
            if messageText = "" then (.completed, [.resolveUser phoneNumber])
            else
              match env.invokeAgent user.id messageText with
              | .err m =>
                (.failed (.agentFailure m),
                  [.resolveUser phoneNumber, .invokeAgent user.id messageText])
              | .ok messages =>
                match messages.getLast? with
                | none =>
                  (.failed .undefinedLastMessage,
                    [.resolveUser phoneNumber, .invokeAgent user.id messageText])
                | some lastMessage =>
                  let answer := lastMessage.content.render
                  match env.deliver phoneNumber answer with
                  | .ok =>
                    (.completed,
                      [.resolveUser phoneNumber, .invokeAgent user.id messageText,
                        .deliver phoneNumber answer])
                  | .err _ =>
                    (.completed,
                      [.resolveUser phoneNumber, .invokeAgent user.id messageText,
                        .deliver phoneNumber answer])

/-- Outcome of the awaited webhookQueue.add call inside the ingress
handler: resolves, or rejects because the broker is unavailable. -/
inductive EnqueueResult where
  | ok
  | brokerError (message : String)
deriving DecidableEq, Repr

/-- The job payload shape persisted by the ingress: it wraps the request
body verbatim under the single field body. -/
structure JobPayload (α : Type) where
  body : α
deriving DecidableEq, Repr

/-- A job as created by webhookQueue.add: a job name and its data. -/
structure JobRecord (α : Type) where
  name : String
  data : JobPayload α
deriving DecidableEq, Repr

/-- The POST /webhooks handler of the ingress server, embedded from the
server source: await webhookQueue.add('process-webhook', body: req.body)
followed by res.status(200).  The oracle gives the enqueue outcome.  The
result is the list of jobs created together with the HTTP status sent,
or none when the awaited add rejected (the handler never reaches the
res.status(200) line, so no acknowledgement is sent). -/
def postWebhooks {α : Type} (enqueue : EnqueueResult) (reqBody : α) :
    Option (List (JobRecord α) × Nat) :=
  match enqueue with
  | .ok => some ([{ name := "process-webhook", data := { body := reqBody } }], 200)
  | .brokerError _ => none

/-- BullMQ backoff options (kind is fixed or exponential, with a delay). -/
structure BackoffOptions where
  kind : String
  delay : Nat
deriving DecidableEq, Repr

/-- BullMQ per-job options relevant to retries. -/
structure JobOptions where
  attempts : Option Nat
  backoff : Option BackoffOptions
deriving DecidableEq, Repr

/-- Job options passed by the ingress in its webhookQueue.add call:
the source passes none. -/
def webhookAddOptions : Option JobOptions := none

/-- defaultJobOptions of the webhooks Queue constructed in lib/queue.ts:
the source configures only the connection, so there are none. -/
def webhookQueueDefaultJobOptions : Option JobOptions := none

/-- Modelled from the spec: the bounded attempt count the queue applies
to a job (BullMQ semantics; the library itself is an external
collaborator).  The spec's queue contract retries up to the configured
number of attempts; absent any configuration a job gets a single
attempt. -/
def effectiveAttempts (opts : Option JobOptions) : Nat :=
  match opts with
  | some o => max 1 (o.attempts.getD 1)
  | none => 1

/-- State of a job after a worker throw: scheduled for another attempt
(with backoff), or moved to the terminal failed state where it is
retained for inspection. -/
inductive FailedJobState where
  | retryScheduled (remaining : Nat)
  | terminalFailed
deriving DecidableEq, Repr

/-- Modelled from the spec: the queue's reaction when the worker throws
on a job that has now made attemptsMade attempts.  While attempts
remain, a retry is scheduled; once the configured attempts are
exhausted the job moves to the terminal failed state. -/
def onWorkerThrow (opts : Option JobOptions) (attemptsMade : Nat) : FailedJobState :=
  if attemptsMade < effectiveAttempts opts then
    .retryScheduled (effectiveAttempts opts - attemptsMade)
  else
    .terminalFailed

/-- Configuration consumed by the delivery client: base URL, API key
(the empty string when AUTHENTICATION_API_KEY is unset, as in the
constructor), and instance name. -/
structure EvolutionConfig where
  baseUrl : String
  apiKey : String
  instanceName : String
deriving DecidableEq, Repr

/-- Outcome of the fetch call underneath sendTextMessage, as an oracle:
a 2xx response, a non-2xx response (status, statusText, body text), an
AbortError after the 30 second timeout, a connection failure
(fetch failed / ECONNREFUSED), a name-resolution failure
(ENOTFOUND / getaddrinfo), or any other thrown Error. -/
inductive TransportOutcome where
  | ok
  | non2xx (status : Nat) (statusText : String) (body : String)
  | timeout
  | connectionRefused (message : String)
  | dnsFailure (message : String)
  | otherError (message : String)
deriving DecidableEq, Repr

/-- Errors thrown by sendTextMessage, from errors/index.ts: a
ValidationError (message and offending field), a ConfigurationError
(message and config key), or an ApiError carrying the message, the
upstream status code if any, the upstream response body if any, and the
contextual fields phoneNumber and url. -/
inductive SendError where
  | validation (message : String) (field : String)
  | configuration (message : String) (configKey : String)
  | api (message : String) (status : Option Nat) (body : Option String)
      (phoneNumber : String) (url : String)
deriving DecidableEq, Repr

/-- Suffix stripping of the delivery client (cleanPhoneNumber):
phoneNumber.includes('@') ? phoneNumber.split('@')[0] : phoneNumber.trim(). -/
def cleanPhone (phoneNumber : String) : String :=
  if '@' ∈ phoneNumber.data then ⟨splitHead '@' phoneNumber.data⟩
  else jsTrim phoneNumber

/-- The numeric-address test of the delivery client: the regular
expression test of a digit-only nonempty string. -/
def numericShape (s : String) : Bool :=
  s.length > 0 && s.data.all Char.isDigit

/-- Target URL of the delivery call. -/
def sendTextUrl (cfg : EvolutionConfig) : String :=
  cfg.baseUrl ++ "/message/sendText/" ++ cfg.instanceName

/-- The try/catch block of sendTextMessage around the fetch call: maps
each transport outcome to the corresponding thrown ApiError (with the
message, status code and context the source attaches for that failure
class) or to success on a 2xx response.  The second component records
that the fetch call was reached. -/
def sendTransport (cfg : EvolutionConfig) (clean : String)
    (transport : TransportOutcome) : Except SendError Unit × Bool :=
  let url := sendTextUrl cfg
  match transport with
  | .ok => (.ok (), true)
  | .non2xx status statusText body =>
    (.error (.api
      ("EvolutionAPI request failed: " ++ toString status ++ " " ++ statusText)
      (some status) (some body) clean url), true)
  | .timeout =>
    (.error (.api ("Request timeout after 30 seconds to " ++ url)
      (some 504) none clean url), true)
  | .connectionRefused _ =>
    (.error (.api
      ("Connection failed to " ++ url ++ ". Is EvolutionAPI running and accessible?")
      (some 503) none clean url), true)
  | .dnsFailure _ =>
    (.error (.api
      "DNS resolution failed for EvolutionAPI. Check if the service name evolution-api is correct."
      (some 503) none clean url), true)
  | .otherError message =>
    (.error (.api message none none clean url), true)

/-- sendTextMessage of the delivery client, embedded from
evolutionApiService.ts.  Returns the thrown error or success, paired
with whether the fetch call was reached (false on every validation and
configuration error).  Validation order, messages, status codes and the
carried context follow the source; the transport oracle stands for the
fetch call and its failure modes. -/
def sendTextMessage (cfg : EvolutionConfig) (phoneNumber text : String)
    (transport : TransportOutcome) : Except SendError Unit × Bool :=
  if phoneNumber = "" ∨ (jsTrim phoneNumber).length = 0 then
    (.error (.validation "Phone number is required" "phoneNumber"), false)
  else
    let clean := cleanPhone phoneNumber
    if ¬ numericShape clean then
      (.error (.validation ("Invalid phone number format: " ++ clean) "phoneNumber"), false)
    else if text = "" ∨ (jsTrim text).length = 0 then
      (.error (.validation "Message text cannot be empty" "text"), false)
    else if cfg.apiKey = "" then
      (.error (.configuration "AUTHENTICATION_API_KEY is not configured"
        "AUTHENTICATION_API_KEY"), false)
    else
      sendTransport cfg clean transport

/-! Helper lemmas. -/

/-- The head of a split is the prefix of the list before the first
occurrence of the separator: it is separator-free and the original list
is that prefix, the separator, and some rest. -/
theorem splitHead_spec {sep : Char} {l : List Char} (h : sep ∈ l) :
    ∃ rest, l = splitHead sep l ++ sep :: rest ∧ sep ∉ splitHead sep l := by
  induction l with
  | nil => exact absurd h (List.not_mem_nil sep)
  | cons c cs ih =>
    by_cases hc : c = sep
    · subst hc
      exact ⟨cs, by simp [splitHead], by simp [splitHead]⟩
    · have hsep : sep ∈ cs := by
        rcases List.mem_cons.mp h with h1 | h1
        · exact absurd h1.symm hc
        · exact h1
      rcases ih hsep with ⟨rest, heq, hnot⟩
      refine ⟨rest, ?_, ?_⟩
      · show c :: cs = splitHead sep (c :: cs) ++ sep :: rest
        simp only [splitHead, if_neg hc, List.cons_append]
        exact congrArg (c :: ·) heq
      · simp only [splitHead, if_neg hc]
        intro hmem
        rcases List.mem_cons.mp hmem with h1 | h1
        · exact hc h1.symm
        · exact hnot h1

/-- A string has length zero exactly when it is the empty string. -/
theorem string_length_eq_zero_iff (s : String) : s.length = 0 ↔ s = "" := by
  constructor
  · intro h
    have hd : s.data = [] := List.length_eq_zero.mp h
    cases s
    simp_all
  · intro h
    subst h
    rfl

/-! Concrete sample data used by witnesses and counterexamples. -/

/-- A sample registered user. -/
def sampleUser : User := { id := 1, name := "Gustavo" }

/-- Environment in which every collaborator succeeds. -/
def happyEnv : Env where
  resolveUser := fun _ => .found sampleUser
  invokeAgent := fun _ _ => .ok [{ content := .str "Anotado: 30g" }]
  deliver := fun _ _ => .ok

/-- A messages.upsert event carrying a channel id but no message text. -/
def noTextBody : WebhookBody where
  event := some "messages.upsert"
  data := some { key := some { remoteJid := some "5511999999999@s.whatsapp.net" },
                 message := none }
  jobData := none

/-! Claim theorems. -/

/-- Claim C1 counterexample: a parsed messages.upsert event with a
channel id but no message text, processed in an environment where every
collaborator works, completes successfully yet its downstream-call trace
is exactly one user-resolution call — so user resolution is invoked,
refuting the claim that user resolution, agent invocation and delivery
are all never invoked for such events. -/
theorem c1_counterexample :
    processJob happyEnv noTextBody = (.completed, [.resolveUser "5511999999999"]) ∧
    (processJob happyEnv noTextBody).2 ≠ [] := by
  exact ⟨by decide, by decide⟩

/-- Claim C1 (amended): for every parsed messages.upsert event with a
channel id but no message text (or an empty one), the worker first
invokes user resolution with the normalized id; provided resolution
does not throw a non-UserNotFoundError error, the job completes
successfully and the trace is exactly that one resolution call — in
particular agent invocation and delivery are never invoked. -/
theorem c1_no_text_skips_agent_and_delivery (env : Env) (body : WebhookBody) (r : String)
    (hev : (unwrap body).event = some "messages.upsert")
    (hjid : ((unwrap body).data.bind EventData.key).bind DataKey.remoteJid = some r)
    (hr : r ≠ "")
    (htext : ∀ t, ((unwrap body).data.bind EventData.message).bind DataMessage.conversation
      = some t → t = "")
    (hres : ∀ m, env.resolveUser (normalizePhone r) ≠ .failure m) :
    processJob env body = (.completed, [.resolveUser (normalizePhone r)]) := by
  rcases hres2 : env.resolveUser (normalizePhone r) with u | _ | m
  · rcases hconv : ((unwrap body).data.bind EventData.message).bind DataMessage.conversation
      with _ | t
    · simp [processJob, hev, hjid, hr, hres2, hconv]
    · have ht := htext t hconv
      subst ht
      simp [processJob, hev, hjid, hr, hres2, hconv]
  · simp [processJob, hev, hjid, hr, hres2]
  · exact absurd hres2 (hres m)

/-- Claim C1 witness: the amended theorem applied to the concrete
no-message-text event and the all-succeeding environment. -/
theorem c1_no_text_skips_agent_and_delivery_witness :
    processJob happyEnv noTextBody = (.completed, [.resolveUser "5511999999999"]) := by
  have h := c1_no_text_skips_agent_and_delivery happyEnv noTextBody
    "5511999999999@s.whatsapp.net" rfl rfl (by decide)
    (fun t ht => Option.noConfusion ht)
    (fun m hm => by exact ResolveResult.noConfusion hm)
  rw [show normalizePhone "5511999999999@s.whatsapp.net" = "5511999999999" from by decide] at h
  exact h

/-- Claim C2: whenever the POST /webhooks handler completes and sends a
response, the status is 200 and exactly one job was enqueued, its
payload wrapping the request body verbatim under the body field; and
the handler completes exactly when the enqueue succeeds, so no request
is acknowledged without a job being created. -/
theorem c2_ingress_enqueues_exactly_one_job {α : Type} (enqueue : EnqueueResult)
    (reqBody : α) :
    (∀ jobs status, postWebhooks enqueue reqBody = some (jobs, status) →
      status = 200 ∧ jobs = [{ name := "process-webhook", data := { body := reqBody } }]) ∧
    ((postWebhooks enqueue reqBody).isSome ↔ enqueue = .ok) := by
  cases enqueue with
  | ok =>
    refine ⟨?_, by simp [postWebhooks]⟩
    intro jobs status h
    simp only [postWebhooks, Option.some.injEq, Prod.mk.injEq] at h
    exact ⟨h.2.symm, h.1.symm⟩
  | brokerError m =>
    refine ⟨?_, by simp [postWebhooks]⟩
    intro jobs status h
    simp [postWebhooks] at h

/-- Claim C2 witness: the theorem applied to a successful enqueue of a
concrete request body. -/
theorem c2_ingress_enqueues_exactly_one_job_witness :
    200 = 200 ∧
    [({ name := "process-webhook", data := { body := (42 : Nat) } } : JobRecord Nat)]
      = [{ name := "process-webhook", data := { body := 42 } }] :=
  (c2_ingress_enqueues_exactly_one_job EnqueueResult.ok (42 : Nat)).1
    [{ name := "process-webhook", data := { body := 42 } }] 200 rfl

/-- Claim C3 counterexample: the repository passes no job options at the
add call and none on the queue, so the effective attempt count is the
default single attempt, and a job whose first execution throws is moved
directly to the terminal failed state — no retry with backoff is ever
scheduled, refuting the claim that a configured bounded retry policy
with backoff is applied before the terminal failed state. -/
theorem c3_counterexample :
    webhookAddOptions = none ∧
    webhookQueueDefaultJobOptions = none ∧
    effectiveAttempts webhookAddOptions = 1 ∧
    onWorkerThrow webhookAddOptions 1 = .terminalFailed := by
  exact ⟨rfl, rfl, rfl, rfl⟩

/-- Claim C3 (amended): for every job whose worker execution throws, the
queue marks the job failed and — since the repository configures no
retry or backoff options anywhere — the default single attempt applies
and the job moves directly to the terminal failed state (where it is
retained for inspection), with no retries. -/
theorem c3_no_retries_configured (n : Nat) (h : 1 ≤ n) :
    onWorkerThrow webhookAddOptions n = .terminalFailed ∧
    onWorkerThrow webhookQueueDefaultJobOptions n = .terminalFailed := by
  have hn : ¬ n < effectiveAttempts (none : Option JobOptions) := by
    simpa [effectiveAttempts] using Nat.not_lt.mpr h
  constructor
  · simp [onWorkerThrow, webhookAddOptions, if_neg hn]
  · simp [onWorkerThrow, webhookQueueDefaultJobOptions, if_neg hn]

/-- Claim C3 witness: the amended theorem at the first attempt. -/
theorem c3_no_retries_configured_witness :
    onWorkerThrow webhookAddOptions 1 = .terminalFailed ∧
    onWorkerThrow webhookQueueDefaultJobOptions 1 = .terminalFailed :=
  c3_no_retries_configured 1 (by decide)

/-- A messages.upsert event carrying both a channel id and message text. -/
def textBody : WebhookBody where
  event := some "messages.upsert"
  data := some { key := some { remoteJid := some "5511999999999@s.whatsapp.net" },
                 message := some { conversation := some "Comi 30g de proteina" } }
  jobData := none

/-- Environment in which resolution and the agent succeed but delivery
throws. -/
def deliverFailEnv : Env where
  resolveUser := fun _ => .found sampleUser
  invokeAgent := fun _ _ => .ok [{ content := .str "Anotado: 30g" }]
  deliver := fun _ _ => .err "Request timeout after 30 seconds"

/-- Environment in which user resolution reports not found. -/
def notFoundEnv : Env where
  resolveUser := fun _ => .notFound
  invokeAgent := fun _ _ => .ok [{ content := .str "Anotado: 30g" }]
  deliver := fun _ _ => .ok

/-- Environment in which user resolution throws a non-UserNotFoundError
error. -/
def resolveFailEnv : Env where
  resolveUser := fun _ => .failure "database outage"
  invokeAgent := fun _ _ => .ok [{ content := .str "Anotado: 30g" }]
  deliver := fun _ _ => .ok

/-- Environment in which agent invocation throws. -/
def agentFailEnv : Env where
  resolveUser := fun _ => .found sampleUser
  invokeAgent := fun _ _ => .err "rate limited"
  deliver := fun _ _ => .ok

/-- Environment in which the agent succeeds with an empty messages list. -/
def emptyAgentEnv : Env where
  resolveUser := fun _ => .found sampleUser
  invokeAgent := fun _ _ => .ok []
  deliver := fun _ _ => .ok

/-- Claim C4: when user resolution and agent invocation succeed and a
reply is produced, a delivery error is caught and the job still
completes successfully: the outcome is completed (with the delivery call
in the trace) even though the delivery oracle threw. -/
theorem c4_delivery_error_does_not_fail_job (env : Env) (body : WebhookBody)
    (r text m : String) (u : User) (msgs : List AgentMessage) (last : AgentMessage)
    (hev : (unwrap body).event = some "messages.upsert")
    (hjid : ((unwrap body).data.bind EventData.key).bind DataKey.remoteJid = some r)
    (hr : r ≠ "")
    (hres : env.resolveUser (normalizePhone r) = .found u)
    (htext : ((unwrap body).data.bind EventData.message).bind DataMessage.conversation
      = some text)
    (ht : text ≠ "")
    (hagent : env.invokeAgent u.id text = .ok msgs)
    (hlast : msgs.getLast? = some last)
    (hdel : env.deliver (normalizePhone r) last.content.render = .err m) :
    processJob env body =
      (.completed,
        [.resolveUser (normalizePhone r), .invokeAgent u.id text,
          .deliver (normalizePhone r) last.content.render]) := by
  simp [processJob, hev, hjid, hr, hres, htext, ht, hagent, hlast, hdel]

/-- Claim C4 witness: the theorem applied to the concrete message event
in the environment whose delivery oracle throws. -/
theorem c4_delivery_error_does_not_fail_job_witness :
    processJob deliverFailEnv textBody =
      (.completed,
        [.resolveUser "5511999999999", .invokeAgent 1 "Comi 30g de proteina",
          .deliver "5511999999999" "Anotado: 30g"]) := by
  have h := c4_delivery_error_does_not_fail_job deliverFailEnv textBody
    "5511999999999@s.whatsapp.net" "Comi 30g de proteina"
    "Request timeout after 30 seconds" sampleUser
    [{ content := .str "Anotado: 30g" }] { content := .str "Anotado: 30g" }
    rfl rfl (by decide) rfl rfl (by decide) rfl rfl rfl
  rw [show normalizePhone "5511999999999@s.whatsapp.net" = "5511999999999" from by decide] at h
  exact h

/-- Claim C5: once a messages.upsert event with a channel id reaches
user resolution, a UserNotFoundError result completes the job
successfully with a trace of just the resolution call (so delivery is
never attempted), while any other resolution error fails the job with
that error propagated. -/
theorem c5_user_resolution_error_policy (env : Env) (body : WebhookBody) (r : String)
    (hev : (unwrap body).event = some "messages.upsert")
    (hjid : ((unwrap body).data.bind EventData.key).bind DataKey.remoteJid = some r)
    (hr : r ≠ "") :
    (env.resolveUser (normalizePhone r) = .notFound →
      processJob env body = (.completed, [.resolveUser (normalizePhone r)])) ∧
    (∀ m, env.resolveUser (normalizePhone r) = .failure m →
      processJob env body =
        (.failed (.resolveFailure m), [.resolveUser (normalizePhone r)])) := by
  constructor
  · intro hres
    simp [processJob, hev, hjid, hr, hres]
  · intro m hres
    simp [processJob, hev, hjid, hr, hres]

/-- Claim C5 witness: the theorem applied to the concrete message event,
once in the user-not-found environment and once in the environment whose
resolution throws a transient error. -/
theorem c5_user_resolution_error_policy_witness :
    processJob notFoundEnv textBody = (.completed, [.resolveUser "5511999999999"]) ∧
    processJob resolveFailEnv textBody =
      (.failed (.resolveFailure "database outage"), [.resolveUser "5511999999999"]) := by
  have h1 := (c5_user_resolution_error_policy notFoundEnv textBody
    "5511999999999@s.whatsapp.net" rfl rfl (by decide)).1 rfl
  have h2 := (c5_user_resolution_error_policy resolveFailEnv textBody
    "5511999999999@s.whatsapp.net" rfl rfl (by decide)).2 "database outage" rfl
  rw [show normalizePhone "5511999999999@s.whatsapp.net" = "5511999999999" from by decide]
    at h1 h2
  exact ⟨h1, h2⟩

/-- Claim C6: when agent invocation throws, the job fails with that
error and the trace ends at the agent call — the delivery client is
never called. -/
theorem c6_agent_error_fails_job_without_delivery (env : Env) (body : WebhookBody)
    (r text m : String) (u : User)
    (hev : (unwrap body).event = some "messages.upsert")
    (hjid : ((unwrap body).data.bind EventData.key).bind DataKey.remoteJid = some r)
    (hr : r ≠ "")
    (hres : env.resolveUser (normalizePhone r) = .found u)
    (htext : ((unwrap body).data.bind EventData.message).bind DataMessage.conversation
      = some text)
    (ht : text ≠ "")
    (hagent : env.invokeAgent u.id text = .err m) :
    processJob env body =
      (.failed (.agentFailure m), [.resolveUser (normalizePhone r), .invokeAgent u.id text]) ∧
    ∀ p s, Call.deliver p s ∉ (processJob env body).2 := by
  have hmain : processJob env body =
      (.failed (.agentFailure m),
        [.resolveUser (normalizePhone r), .invokeAgent u.id text]) := by
    simp [processJob, hev, hjid, hr, hres, htext, ht, hagent]
  refine ⟨hmain, ?_⟩
  intro p s hmem
  rw [hmain] at hmem
  simp at hmem

/-- Claim C6 witness: the theorem applied to the concrete message event
in the environment whose agent oracle throws. -/
theorem c6_agent_error_fails_job_without_delivery_witness :
    processJob agentFailEnv textBody =
      (.failed (.agentFailure "rate limited"),
        [.resolveUser "5511999999999", .invokeAgent 1 "Comi 30g de proteina"]) := by
  have h := (c6_agent_error_fails_job_without_delivery agentFailEnv textBody
    "5511999999999@s.whatsapp.net" "Comi 30g de proteina" "rate limited" sampleUser
    rfl rfl (by decide) rfl rfl (by decide) rfl).1
  rw [show normalizePhone "5511999999999@s.whatsapp.net" = "5511999999999" from by decide] at h
  exact h

/-- Claim C9: when agent invocation succeeds with an empty messages
list, reading the last message yields no element, the worker throws, the
job fails, and delivery is never attempted. -/
theorem c9_empty_agent_response_fails_job (env : Env) (body : WebhookBody)
    (r text : String) (u : User)
    (hev : (unwrap body).event = some "messages.upsert")
    (hjid : ((unwrap body).data.bind EventData.key).bind DataKey.remoteJid = some r)
    (hr : r ≠ "")
    (hres : env.resolveUser (normalizePhone r) = .found u)
    (htext : ((unwrap body).data.bind EventData.message).bind DataMessage.conversation
      = some text)
    (ht : text ≠ "")
    (hagent : env.invokeAgent u.id text = .ok []) :
    processJob env body =
      (.failed .undefinedLastMessage,
        [.resolveUser (normalizePhone r), .invokeAgent u.id text]) ∧
    ∀ p s, Call.deliver p s ∉ (processJob env body).2 := by
  have hmain : processJob env body =
      (.failed .undefinedLastMessage,
        [.resolveUser (normalizePhone r), .invokeAgent u.id text]) := by
    simp [processJob, hev, hjid, hr, hres, htext, ht, hagent]
  refine ⟨hmain, ?_⟩
  intro p s hmem
  rw [hmain] at hmem
  simp at hmem

/-- Claim C9 witness: the theorem applied to the concrete message event
in the environment whose agent returns an empty messages list. -/
theorem c9_empty_agent_response_fails_job_witness :
    processJob emptyAgentEnv textBody =
      (.failed .undefinedLastMessage,
        [.resolveUser "5511999999999", .invokeAgent 1 "Comi 30g de proteina"]) := by
  have h := (c9_empty_agent_response_fails_job emptyAgentEnv textBody
    "5511999999999@s.whatsapp.net" "Comi 30g de proteina" sampleUser
    rfl rfl (by decide) rfl rfl (by decide) rfl).1
  rw [show normalizePhone "5511999999999@s.whatsapp.net" = "5511999999999" from by decide] at h
  exact h

/-- Once a messages.upsert event with a (truthy) channel id is
processed, the downstream-call trace has one of three shapes, each
starting with the user-resolution call on the normalized id, and any
delivery call also uses the normalized id. -/
theorem processJob_trace_cases (env : Env) (body : WebhookBody) (r : String)
    (hev : (unwrap body).event = some "messages.upsert")
    (hjid : ((unwrap body).data.bind EventData.key).bind DataKey.remoteJid = some r)
    (hr : r ≠ "") :
    (processJob env body).2 = [.resolveUser (normalizePhone r)] ∨
    (∃ uid t, (processJob env body).2
      = [.resolveUser (normalizePhone r), .invokeAgent uid t]) ∨
    (∃ uid t s, (processJob env body).2
      = [.resolveUser (normalizePhone r), .invokeAgent uid t,
          .deliver (normalizePhone r) s]) := by
  rcases h1 : env.resolveUser (normalizePhone r) with u | _ | m
  · rcases h2 : ((unwrap body).data.bind EventData.message).bind DataMessage.conversation
      with _ | t
    · left
      simp [processJob, hev, hjid, hr, h1, h2]
    · by_cases ht : t = ""
      · subst ht
        left
        simp [processJob, hev, hjid, hr, h1, h2]
      · rcases h3 : env.invokeAgent u.id t with msgs | m2
        · rcases h4 : msgs.getLast? with _ | last
          · right; left
            exact ⟨u.id, t, by simp [processJob, hev, hjid, hr, h1, h2, ht, h3, h4]⟩
          · rcases h5 : env.deliver (normalizePhone r) last.content.render with _ | m3
            · right; right
              exact ⟨u.id, t, last.content.render,
                by simp [processJob, hev, hjid, hr, h1, h2, ht, h3, h4, h5]⟩
            · right; right
              exact ⟨u.id, t, last.content.render,
                by simp [processJob, hev, hjid, hr, h1, h2, ht, h3, h4, h5]⟩
        · right; left
          exact ⟨u.id, t, by simp [processJob, hev, hjid, hr, h1, h2, ht, h3]⟩
  · left
    simp [processJob, hev, hjid, hr, h1]
  · left
    simp [processJob, hev, hjid, hr, h1]

/-- Claim C7: every user-resolution call and every delivery call in the
trace uses the normalized channel id; for ids containing the qualifier
character the normalized id is exactly the prefix before the first
occurrence (qualifier-free, followed by the qualifier and the rest), and
ids without the qualifier pass through unchanged. -/
theorem c7_normalized_id_before_first_qualifier (env : Env) (body : WebhookBody)
    (r : String)
    (hev : (unwrap body).event = some "messages.upsert")
    (hjid : ((unwrap body).data.bind EventData.key).bind DataKey.remoteJid = some r)
    (hr : r ≠ "") :
    (∀ p, Call.resolveUser p ∈ (processJob env body).2 → p = normalizePhone r) ∧
    (∀ p s, Call.deliver p s ∈ (processJob env body).2 → p = normalizePhone r) ∧
    ('@' ∈ r.data →
      ∃ rest, r.data = (normalizePhone r).data ++ '@' :: rest ∧
        '@' ∉ (normalizePhone r).data) ∧
    ('@' ∉ r.data → normalizePhone r = r) := by
  refine ⟨?_, ?_, ?_, ?_⟩
  · intro p hp
    rcases processJob_trace_cases env body r hev hjid hr with h | ⟨uid, t, h⟩ | ⟨uid, t, s, h⟩ <;>
      rw [h] at hp <;> simp_all
  · intro p s hp
    rcases processJob_trace_cases env body r hev hjid hr with h | ⟨uid, t, h⟩ | ⟨uid, t, s2, h⟩ <;>
      rw [h] at hp <;> simp_all
  · intro hat
    have hn : normalizePhone r = ⟨splitHead '@' r.data⟩ := by
      simp [normalizePhone, hat]
    rw [hn]
    exact splitHead_spec hat
  · intro hat
    simp [normalizePhone, hat]

/-- Claim C7 witness: the theorem applied to the concrete message event;
the resolution call in its trace carries the prefix before the first
qualifier character. -/
theorem c7_normalized_id_before_first_qualifier_witness :
    "5511999999999" = normalizePhone "5511999999999@s.whatsapp.net" ∧
    ∃ rest, "5511999999999@s.whatsapp.net".data =
      (normalizePhone "5511999999999@s.whatsapp.net").data ++ '@' :: rest ∧
      '@' ∉ (normalizePhone "5511999999999@s.whatsapp.net").data := by
  have h := c7_normalized_id_before_first_qualifier happyEnv textBody
    "5511999999999@s.whatsapp.net" rfl rfl (by decide)
  refine ⟨h.1 "5511999999999" ?_, h.2.2.1 (by decide)⟩
  decide

/-- A messages.upsert event whose remoteJid is only a domain qualifier. -/
def qualifierOnlyBody : WebhookBody where
  event := some "messages.upsert"
  data := some { key := some { remoteJid := some "@s.whatsapp.net" },
                 message := some { conversation := some "Comi 30g de proteina" } }
  jobData := none

/-- Claim C10: a remoteJid beginning with the qualifier character (a
nonempty string, hence truthy) passes the missing-channel-id check, its
normalized form is the empty string, and that empty string is passed to
user resolution — the worker never re-validates the channel id after
suffix stripping. -/
theorem c10_qualifier_only_jid_reaches_resolution (env : Env) (body : WebhookBody)
    (r : String)
    (hev : (unwrap body).event = some "messages.upsert")
    (hjid : ((unwrap body).data.bind EventData.key).bind DataKey.remoteJid = some r)
    (hhead : r.data.head? = some '@') :
    normalizePhone r = "" ∧ Call.resolveUser "" ∈ (processJob env body).2 := by
  obtain ⟨cs, hcs⟩ : ∃ cs, r.data = '@' :: cs := by
    cases hd : r.data with
    | nil =>
      rw [hd] at hhead
      simp at hhead
    | cons c cs =>
      rw [hd] at hhead
      simp only [List.head?_cons, Option.some.injEq] at hhead
      exact ⟨cs, by rw [hhead]⟩
  have hr : r ≠ "" := by
    intro h
    subst h
    exact List.noConfusion hcs
  have hat : '@' ∈ r.data := by
    rw [hcs]
    exact List.mem_cons_self _ _
  have hnorm : normalizePhone r = "" := by
    simp only [normalizePhone, if_pos hat, hcs, splitHead, if_pos rfl]
    rfl
  refine ⟨hnorm, ?_⟩
  rcases processJob_trace_cases env body r hev hjid hr with h | ⟨uid, t, h⟩ | ⟨uid, t, s, h⟩ <;>
    rw [h, hnorm] <;> simp

/-- Claim C10 witness: the theorem applied to the concrete event whose
remoteJid is exactly the qualifier suffix. -/
theorem c10_qualifier_only_jid_reaches_resolution_witness :
    normalizePhone "@s.whatsapp.net" = "" ∧
    Call.resolveUser "" ∈ (processJob happyEnv qualifierOnlyBody).2 :=
  c10_qualifier_only_jid_reaches_resolution happyEnv qualifierOnlyBody
    "@s.whatsapp.net" rfl rfl (by decide)

/-- A string whose trim is nonempty fails neither disjunct of the
source's emptiness check. -/
theorem trim_ne_empty_check {s : String} (h : jsTrim s ≠ "") :
    ¬ (s = "" ∨ (jsTrim s).length = 0) := by
  rintro (h1 | h1)
  · subst h1
    exact h (by decide)
  · exact h ((string_length_eq_zero_iff _).mp h1)

/-- Sample valid delivery-client configuration. -/
def sampleConfig : EvolutionConfig :=
  { baseUrl := "http://evolution-api:8080", apiKey := "secret", instanceName := "protein" }

/-- Claim C8: sendTextMessage throws before any network request when the
channel id is empty, the suffix-stripped id is not entirely numeric, the
text is empty or whitespace-only, or the access credential is unset —
the missing credential being a distinct configuration failure — and
every transport failure is surfaced as the single ApiError failure type,
with a class-specific message and upstream status (the non-2xx status
and body for non-2xx responses, 504 for timeouts, 503 for connection
and name-resolution failures), always carrying the channel id and the
target URL. -/
theorem c8_send_validation_and_classification (cfg : EvolutionConfig)
    (phone text : String) (t : TransportOutcome) :
    (phone = "" ∨ numericShape (cleanPhone phone) = false ∨ jsTrim text = "" ∨
        cfg.apiKey = "" →
      (sendTextMessage cfg phone text t).2 = false ∧
      ∃ e, (sendTextMessage cfg phone text t).1 = .error e) ∧
    (jsTrim phone ≠ "" → numericShape (cleanPhone phone) = true → jsTrim text ≠ "" →
      cfg.apiKey = "" →
      sendTextMessage cfg phone text t =
        (.error (.configuration "AUTHENTICATION_API_KEY is not configured"
          "AUTHENTICATION_API_KEY"), false)) ∧
    (jsTrim phone ≠ "" → numericShape (cleanPhone phone) = true → jsTrim text ≠ "" →
      cfg.apiKey ≠ "" →
      (∀ s st b, t = .non2xx s st b →
        sendTextMessage cfg phone text t =
          (.error (.api ("EvolutionAPI request failed: " ++ toString s ++ " " ++ st)
            (some s) (some b) (cleanPhone phone) (sendTextUrl cfg)), true)) ∧
      (t = .timeout →
        sendTextMessage cfg phone text t =
          (.error (.api ("Request timeout after 30 seconds to " ++ sendTextUrl cfg)
            (some 504) none (cleanPhone phone) (sendTextUrl cfg)), true)) ∧
      (∀ m, t = .connectionRefused m →
        sendTextMessage cfg phone text t =
          (.error (.api ("Connection failed to " ++ sendTextUrl cfg
            ++ ". Is EvolutionAPI running and accessible?")
            (some 503) none (cleanPhone phone) (sendTextUrl cfg)), true)) ∧
      (∀ m, t = .dnsFailure m →
        sendTextMessage cfg phone text t =
          (.error (.api
            "DNS resolution failed for EvolutionAPI. Check if the service name evolution-api is correct."
            (some 503) none (cleanPhone phone) (sendTextUrl cfg)), true)) ∧
      (t ≠ .ok → ∃ msg status bd,
        (sendTextMessage cfg phone text t).1 =
          .error (.api msg status bd (cleanPhone phone) (sendTextUrl cfg)))) := by
  refine ⟨?_, ?_, ?_⟩
  · intro hp
    by_cases h1 : phone = "" ∨ (jsTrim phone).length = 0
    · have hs : sendTextMessage cfg phone text t
          = (.error (.validation "Phone number is required" "phoneNumber"), false) := by
        simp only [sendTextMessage, if_pos h1]
      rw [hs]
      exact ⟨rfl, _, rfl⟩
    · by_cases h2 : numericShape (cleanPhone phone) = true
      · by_cases h3 : text = "" ∨ (jsTrim text).length = 0
        · have hs : sendTextMessage cfg phone text t
              = (.error (.validation "Message text cannot be empty" "text"), false) := by
            simp only [sendTextMessage, if_neg h1, if_neg (not_not_intro h2), if_pos h3]
          rw [hs]
          exact ⟨rfl, _, rfl⟩
        · have hkey : cfg.apiKey = "" := by
            rcases hp with h | h | h | h
            · exact absurd (Or.inl h) h1
            · rw [h2] at h
              cases h
            · exact absurd (Or.inr ((string_length_eq_zero_iff _).mpr h)) h3
            · exact h
          have hs : sendTextMessage cfg phone text t
              = (.error (.configuration "AUTHENTICATION_API_KEY is not configured"
                  "AUTHENTICATION_API_KEY"), false) := by
            simp only [sendTextMessage, if_neg h1, if_neg (not_not_intro h2),
              if_neg h3, if_pos hkey]
          rw [hs]
          exact ⟨rfl, _, rfl⟩
      · have hs : sendTextMessage cfg phone text t
            = (.error (.validation ("Invalid phone number format: " ++ cleanPhone phone)
                "phoneNumber"), false) := by
          simp only [sendTextMessage, if_neg h1, if_pos h2]
        rw [hs]
        exact ⟨rfl, _, rfl⟩
  · intro hpt hnum htext hkey
    simp only [sendTextMessage, if_neg (trim_ne_empty_check hpt),
      if_neg (not_not_intro hnum), if_neg (trim_ne_empty_check htext), if_pos hkey]
  · intro hpt hnum htext hkey
    have hv : sendTextMessage cfg phone text t = sendTransport cfg (cleanPhone phone) t := by
      simp only [sendTextMessage, if_neg (trim_ne_empty_check hpt),
        if_neg (not_not_intro hnum), if_neg (trim_ne_empty_check htext), if_neg hkey]
    refine ⟨?_, ?_, ?_, ?_, ?_⟩
    · intro s st b hteq
      subst hteq
      rw [hv]
      try rfl
    · intro hteq
      subst hteq
      rw [hv]
      try rfl
    · intro m hteq
      subst hteq
      rw [hv]
      try rfl
    · intro m hteq
      subst hteq
      rw [hv]
      try rfl
    · intro hne
      cases t with
      | ok => exact absurd rfl hne
      | non2xx s st b =>
        exact ⟨"EvolutionAPI request failed: " ++ toString s ++ " " ++ st, some s, some b,
          by rw [hv]; try rfl⟩
      | timeout =>
        exact ⟨"Request timeout after 30 seconds to " ++ sendTextUrl cfg, some 504, none,
          by rw [hv]; try rfl⟩
      | connectionRefused m =>
        exact ⟨"Connection failed to " ++ sendTextUrl cfg
          ++ ". Is EvolutionAPI running and accessible?", some 503, none,
          by rw [hv]; try rfl⟩
      | dnsFailure m =>
        exact ⟨"DNS resolution failed for EvolutionAPI. Check if the service name evolution-api is correct.",
          some 503, none, by rw [hv]; try rfl⟩
      | otherError m =>
        exact ⟨m, none, none, by rw [hv]; try rfl⟩

/-- Claim C8 witness: the theorem applied to a valid configuration and
inputs with a timed-out transport. -/
theorem c8_send_validation_and_classification_witness :
    sendTextMessage sampleConfig "5511999999999@s.whatsapp.net" "Oi" .timeout =
      (.error (.api ("Request timeout after 30 seconds to " ++ sendTextUrl sampleConfig)
        (some 504) none "5511999999999" (sendTextUrl sampleConfig)), true) := by
  have h := ((c8_send_validation_and_classification sampleConfig
    "5511999999999@s.whatsapp.net" "Oi" .timeout).2.2
    (by decide) (by decide) (by decide) (by decide)).2.1 rfl
  rw [show cleanPhone "5511999999999@s.whatsapp.net" = "5511999999999" from by decide] at h
  exact h

end ProteinAgent
